import Mathlib

/-!
Verification of the stardis radiation-field core.

Shallow embedding of:
  * `stardis/radiation_field/base.py` — the `RadiationField` class
    (`__init__`, `hdf_properties`) and `create_stellar_radiation_field`;
  * `stardis/io/model/util.py` — `create_scaled_solar_profile`.

Python floats are embedded as real numbers, numpy arrays as lists of reals.
External library calls (`np.polynomial.legendre.leggauss`) and external
collaborators (`calc_alphas`, `raytrace`, the opacity container internals)
are modelled through their interfaces: `leggauss` output is a pair of lists
assumed (per hypothesis) to satisfy the documented Gauss–Legendre contract,
and the two solvers are arbitrary function parameters.
-/

/-- Stellar model, as consumed by `RadiationField.__init__`: only its
`no_of_depth_points` attribute is read (a Python int, so `ℤ`). -/
structure StellarModel where
  no_of_depth_points : ℤ

/-- The opaque source-function capability stored on the radiation field and
never invoked at construction time.  `blackbody_flux_at_nu` is the one the
orchestrator passes; other callables are represented by a tag. -/
inductive SourceFunction
  | blackbody_flux_at_nu
  | other (tag : ℕ)
deriving DecidableEq

/-- Modelled from the spec: the `Opacities` container (its class body is not
part of the studied slice) is "an empty aggregate keyed by the given frequency
grid and stellar model"; `RadiationField.__init__` builds it as
`Opacities(frequencies, stellar_model)` and `calc_alphas` later fills it. -/
structure Opacities where
  frequencies : List ℝ
  no_of_depth_points : ℤ

/-- The `RadiationField` data structure of `stardis/radiation_field/base.py`. -/
structure RadiationField where
  frequencies : List ℝ
  source_function : SourceFunction
  opacities : Opacities
  F_nu : List (List ℝ)
  thetas : List ℝ
  I_nus_weights : List ℝ
  I_nus : List (List (List ℝ))

/-- `np.zeros((d, f))` for non-negative dimensions. -/
def zeros2 (d f : ℕ) : List (List ℝ) :=
  List.replicate d (List.replicate f 0)

/-- `np.zeros((d, f, t))` for non-negative dimensions. -/
def zeros3 (d f t : ℕ) : List (List (List ℝ)) :=
  List.replicate d (List.replicate f (List.replicate t 0))

/-- Documented contract of `np.polynomial.legendre.leggauss n` for `n ≥ 1`:
`n` sample points inside the open interval (-1, 1), returned in ascending
order, with `n` positive weights summing to 2 (Gauss–Legendre exactness on
the constant polynomial over [-1, 1]). -/
def legGaussContract (n : ℕ) (nodes weights : List ℝ) : Prop :=
  nodes.length = n ∧
  weights.length = n ∧
  (∀ x ∈ nodes, -1 < x ∧ x < 1) ∧
  List.Chain' (· < ·) nodes ∧
  (∀ w ∈ weights, 0 < w) ∧
  weights.sum = 2

/-- The successful body of `RadiationField.__init__`, field by field in source
order, given the node/weight pair produced by `leggauss(num_of_thetas)`:
`thetas = (x / 2) + 0.5 * π / 2` per node, `I_nus_weights = w * π / 2` per
weight, `F_nu` and `I_nus` zero-filled with the depth count from the stellar
model, the frequency count, and `len(self.thetas)`. -/
noncomputable def radiationFieldMk (frequencies : List ℝ)
    (source_function : SourceFunction) (stellar_model : StellarModel)
    (nodes weights : List ℝ) : RadiationField :=
  let thetas := nodes.map (fun x => x / 2 + 0.5 * Real.pi / 2)
  { frequencies := frequencies
    source_function := source_function
    opacities := { frequencies := frequencies
                   no_of_depth_points := stellar_model.no_of_depth_points }
    F_nu := zeros2 stellar_model.no_of_depth_points.toNat frequencies.length
    thetas := thetas
    I_nus_weights := weights.map (fun w => w * Real.pi / 2)
    I_nus := zeros3 stellar_model.no_of_depth_points.toNat frequencies.length
      thetas.length }

/-- The two ways `RadiationField.__init__` can raise: `np.zeros` rejects a
negative depth count ("negative dimensions are not allowed"), and
`np.polynomial.legendre.leggauss` rejects `deg < 1` ("deg must be a positive
integer"). -/
inductive InitError
  | negativeDimensions
  | legGaussDegree
deriving DecidableEq

/-- `RadiationField.__init__` as a fallible construction.  The `np.zeros`
call for `F_nu` precedes the `leggauss` call in the source, so the
negative-depth failure is checked first; `gl` is the `leggauss` output used
on the successful path. -/
noncomputable def radiationFieldInitE (frequencies : List ℝ)
    (source_function : SourceFunction) (stellar_model : StellarModel)
    (num_of_thetas : ℤ) (gl : List ℝ × List ℝ) :
    Except InitError RadiationField :=
  if stellar_model.no_of_depth_points < 0 then .error .negativeDimensions
  else if num_of_thetas < 1 then .error .legGaussDegree
  else .ok (radiationFieldMk frequencies source_function stellar_model gl.1 gl.2)

/-- The dense arrays of `RadiationField.__init__`. -/
inductive DenseArray
  | F_nu
  | I_nus
deriving DecidableEq

/-- Dense arrays that `RadiationField.__init__` has allocated by the time it
either returns or raises, following source statement order: `F_nu` is
allocated on line 49, before the `leggauss` call on line 52; `I_nus` is
allocated last, on line 65. -/
def initDenseArraysAllocated (no_of_depth_points num_of_thetas : ℤ) :
    List DenseArray :=
  if no_of_depth_points < 0 then []
  else if num_of_thetas < 1 then [.F_nu]
  else [.F_nu, .I_nus]

/-- `RadiationField.hdf_properties`, the class attribute naming the fields
exported for serialization. -/
def RadiationField.hdf_properties : List String :=
  ["frequencies", "opacities", "F_nu"]

/-- `config` object consumed by `create_stellar_radiation_field`. -/
structure OpacitySourcesConfig where
  tag : ℕ

/-- The configuration surface read by the orchestrator. -/
structure Config where
  no_of_thetas : ℤ
  opacity : OpacitySourcesConfig
  n_threads : ℤ

/-- Opaque stellar plasma handle (external collaborator input). -/
structure StellarPlasma where
  tag : ℕ

/-- Observable calls made by `create_stellar_radiation_field`, in order. -/
inductive OrchEvent
  | constructRadiationField
  | callCalcAlphas
  | callRaytrace
deriving DecidableEq

/-- `create_stellar_radiation_field`.  The two external collaborators are
parameters: `calc_alphas` receives the plasma, stellar model, radiation
field, opacity config and thread count and fills the opacity container;
`raytrace` receives the stellar model, the radiation field (with opacities
now filled) and the thread count and produces the `F_nu` and `I_nus`
contents.  Python's in-place mutation is rendered as record update, and
Python's exception flow as `Except` over an arbitrary error type `ε`, paired
with the trace of calls actually made. -/
noncomputable def create_stellar_radiation_field {ε : Type}
    (tracing_nus : List ℝ) (stellar_model : StellarModel)
    (stellar_plasma : StellarPlasma) (config : Config) (gl : List ℝ × List ℝ)
    (calc_alphas : StellarPlasma → StellarModel → RadiationField →
      OpacitySourcesConfig → ℤ → Except ε Opacities)
    (raytrace : StellarModel → RadiationField → ℤ →
      Except ε (List (List ℝ) × List (List (List ℝ)))) :
    List OrchEvent × Except (InitError ⊕ ε) RadiationField :=
  match radiationFieldInitE tracing_nus .blackbody_flux_at_nu stellar_model
      config.no_of_thetas gl with
  | .error e => ([.constructRadiationField], .error (.inl e))
  | .ok rf =>
    match calc_alphas stellar_plasma stellar_model rf config.opacity
        config.n_threads with
    | .error e => ([.constructRadiationField, .callCalcAlphas], .error (.inr e))
    | .ok ops =>
      let rf1 : RadiationField := { rf with opacities := ops }
      match raytrace stellar_model rf1 config.n_threads with
      | .error e =>
        ([.constructRadiationField, .callCalcAlphas, .callRaytrace],
         .error (.inr e))
      | .ok fi =>
        ([.constructRadiationField, .callCalcAlphas, .callRaytrace],
         .ok { rf1 with F_nu := fi.1, I_nus := fi.2 })

/-- `stardis/io/model/util.py`: the Asplund 2009 helium mass fraction. -/
def ASPLUND_DEFAULT_HELIUM_MASS_FRACTION_Y : ℝ := 0.2492280

/-- `stardis/io/model/util.py`: the Asplund 2009 heavy-metal mass fraction. -/
def ASPLUND_DEFAULT_HEAVY_ELEMENTS_MASS_FRACTION_Z : ℝ := 0.01337

/-- The two scaling assignments of `create_scaled_solar_profile` on one row of
the mass-fraction column: the helium row (atomic number 2) is multiplied by
`Y / ASPLUND_DEFAULT_HELIUM_MASS_FRACTION_Y`, the metal rows (atomic number
`≥ 3`, the `loc[3:]` slice) by
`Z / ASPLUND_DEFAULT_HEAVY_ELEMENTS_MASS_FRACTION_Z`, and the hydrogen row is
left untouched. -/
noncomputable def scaleElementRow (helium_mass_frac_Y heavy_metal_mass_frac_Z : ℝ)
    (atomic_number : ℕ) (v : ℝ) : ℝ :=
  if atomic_number = 2 then
    v * helium_mass_frac_Y / ASPLUND_DEFAULT_HELIUM_MASS_FRACTION_Y
  else if 3 ≤ atomic_number then
    v * heavy_metal_mass_frac_Z / ASPLUND_DEFAULT_HEAVY_ELEMENTS_MASS_FRACTION_Z
  else v

/-- `create_scaled_solar_profile` of `stardis/io/model/util.py`.  The Asplund
CSV is the list `solar_values` of (atomic number, log-abundance `Value`)
rows; `mass` is `atom_data.atom_data.mass` indexed by atomic number.  The
function builds the `mass_fractions` column as `mass * 10**Value`, drops the
other columns, scales helium and metals, and divides the column by its sum. -/
noncomputable def create_scaled_solar_profile (solar_values : List (ℕ × ℝ))
    (mass : ℕ → ℝ) (helium_mass_frac_Y heavy_metal_mass_frac_Z : ℝ)
    (final_atomic_number : Option ℕ) : List (ℕ × ℝ) :=
  let sv := match final_atomic_number with
    | none => solar_values
    | some f => solar_values.filter (fun p => p.1 ≤ f)
  let mass_fractions := sv.map (fun p => (p.1, mass p.1 * (10 : ℝ) ^ p.2))
  let scaled := mass_fractions.map
    (fun p => (p.1, scaleElementRow helium_mass_frac_Y heavy_metal_mass_frac_Z p.1 p.2))
  let total := (scaled.map Prod.snd).sum
  scaled.map (fun p => (p.1, p.2 / total))

/-! ## Helper lemmas -/

theorem sum_map_mul_pi_div_two (l : List ℝ) :
    (l.map (fun w => w * Real.pi / 2)).sum = l.sum * (Real.pi / 2) := by
  have h : l.map (fun w => w * Real.pi / 2) = l.map (fun w => w * (Real.pi / 2)) :=
    List.map_congr_left (fun x _ => by ring)
  rw [h]
  simpa using List.sum_map_mul_right l id (Real.pi / 2)

theorem I_nus_weights_mk (freqs : List ℝ) (sf : SourceFunction)
    (sm : StellarModel) (nodes weights : List ℝ) :
    (radiationFieldMk freqs sf sm nodes weights).I_nus_weights
      = weights.map (fun w => w * Real.pi / 2) := rfl

theorem thetas_mk (freqs : List ℝ) (sf : SourceFunction)
    (sm : StellarModel) (nodes weights : List ℝ) :
    (radiationFieldMk freqs sf sm nodes weights).thetas
      = nodes.map (fun x => x / 2 + 0.5 * Real.pi / 2) := rfl

/-! ## Claims -/

/-- C1 counterexample: at `num_of_thetas = 1`, `leggauss` returns node 0 with
weight 2 (satisfying the Gauss–Legendre contract), construction succeeds, and
the stored `I_nus_weights` sum to `2 * π / 2 = π`, not `π / 2`. -/
theorem C1_weights_sum_counterexample :
    legGaussContract 1 [0] [2] ∧
    radiationFieldInitE [] SourceFunction.blackbody_flux_at_nu ⟨1⟩ 1 ([0], [2])
      = .ok (radiationFieldMk [] SourceFunction.blackbody_flux_at_nu ⟨1⟩ [0] [2]) ∧
    (radiationFieldMk [] SourceFunction.blackbody_flux_at_nu ⟨1⟩
        [0] [2]).I_nus_weights.sum ≠ Real.pi / 2 := by
  refine ⟨?_, rfl, ?_⟩
  · refine ⟨rfl, rfl, ?_, ?_, ?_, ?_⟩ <;> norm_num
  · rw [I_nus_weights_mk]
    have hπ := Real.pi_pos
    simp only [List.map_cons, List.map_nil, List.sum_cons, List.sum_nil]
    intro h
    nlinarith

/-- C1 amended: for every `num_of_thetas = n ≥ 1` and `leggauss` output
satisfying the Gauss–Legendre contract, the sum of the quadrature weights
stored in `I_nus_weights` by `RadiationField` construction equals `π` (the
weights on [-1, 1] sum to 2 and each is scaled by `π / 2`). -/
theorem C1_weights_sum_amended (n : ℕ) (hn : 1 ≤ n) (nodes weights : List ℝ)
    (hgl : legGaussContract n nodes weights) (freqs : List ℝ)
    (sf : SourceFunction) (sm : StellarModel) :
    (radiationFieldMk freqs sf sm nodes weights).I_nus_weights.sum = Real.pi := by
  rw [I_nus_weights_mk, sum_map_mul_pi_div_two, hgl.2.2.2.2.2]
  ring

/-- C1 witness: the amended sum property evaluated at `n = 1` with the
concrete one-point Gauss–Legendre rule (node 0, weight 2). -/
theorem C1_weights_sum_amended_witness :
    (radiationFieldMk [] SourceFunction.blackbody_flux_at_nu ⟨1⟩
      [0] [2]).I_nus_weights.sum = Real.pi :=
  C1_weights_sum_amended 1 (by norm_num) [0] [2]
    (by refine ⟨rfl, rfl, ?_, ?_, ?_, ?_⟩ <;> norm_num) [] _ _

/-- C2 counterexample: construction with an empty `frequencies` sequence
(depth count 10, one theta) succeeds instead of raising a construction
error. -/
theorem C2_fail_fast_counterexample :
    legGaussContract 1 [0] [2] ∧
    (radiationFieldInitE [] SourceFunction.blackbody_flux_at_nu ⟨10⟩ 1
      ([0], [2])).isOk = true := by
  refine ⟨?_, rfl⟩
  refine ⟨rfl, rfl, ?_, ?_, ?_, ?_⟩ <;> norm_num

/-- C2 amended: `RadiationField` construction raises a construction error
exactly when `no_of_depth_points` is negative (rejected by `np.zeros`) or
`num_of_thetas < 1` (rejected by `leggauss`); an empty `frequencies` sequence
or a zero depth count does not raise. -/
theorem C2_fail_fast_amended (freqs : List ℝ) (sf : SourceFunction)
    (sm : StellarModel) (num_of_thetas : ℤ) (gl : List ℝ × List ℝ) :
    (∃ e, radiationFieldInitE freqs sf sm num_of_thetas gl = .error e) ↔
      sm.no_of_depth_points < 0 ∨ num_of_thetas < 1 := by
  unfold radiationFieldInitE
  split_ifs with h1 h2
  · simp [h1]
  · simp [h1, h2]
  · simp [h1, h2]

/-- C5 counterexample: construction with `num_of_thetas = 0` (depth count 10)
raises the `leggauss` degree error, yet the dense array `F_nu` has already
been allocated when the error is raised, so the set of arrays allocated on
failure is not empty. -/
theorem C5_allocation_counterexample :
    radiationFieldInitE [1] SourceFunction.blackbody_flux_at_nu ⟨10⟩ 0 ([], [])
      = .error .legGaussDegree ∧
    initDenseArraysAllocated 10 0 = [DenseArray.F_nu] ∧
    initDenseArraysAllocated 10 0 ≠ [] := by
  exact ⟨rfl, rfl, by decide⟩

/-- C5 amended: with a non-negative depth count and `num_of_thetas < 1`,
construction raises the quadrature error after `F_nu` has been allocated but
before `I_nus` is allocated: exactly `F_nu` is allocated on failure. -/
theorem C5_allocation_amended (freqs : List ℝ) (sf : SourceFunction)
    (sm : StellarModel) (hd : 0 ≤ sm.no_of_depth_points)
    (num_of_thetas : ℤ) (hnum : num_of_thetas < 1) (gl : List ℝ × List ℝ) :
    radiationFieldInitE freqs sf sm num_of_thetas gl = .error .legGaussDegree ∧
    initDenseArraysAllocated sm.no_of_depth_points num_of_thetas
      = [DenseArray.F_nu] := by
  unfold radiationFieldInitE initDenseArraysAllocated
  rw [if_neg (by omega), if_pos hnum, if_neg (by omega), if_pos hnum]
  exact ⟨rfl, rfl⟩

/-- C5 witness: the amended allocation property evaluated with one frequency,
depth count 10 and `num_of_thetas = 0`. -/
theorem C5_allocation_amended_witness :
    (0 : ℤ) ≤ 10 ∧ (0 : ℤ) < 1 ∧
    (radiationFieldInitE [1] SourceFunction.blackbody_flux_at_nu ⟨10⟩ 0 ([], [])
        = .error .legGaussDegree ∧
      initDenseArraysAllocated 10 0 = [DenseArray.F_nu]) :=
  ⟨by norm_num, by norm_num,
    C5_allocation_amended [1] SourceFunction.blackbody_flux_at_nu ⟨10⟩
      (by norm_num) 0 (by norm_num) ([], [])⟩

/-- C8: the persisted-export list `hdf_properties` names exactly
`frequencies`, `opacities`, `F_nu` in that order, and excludes `I_nus`,
`thetas` and `I_nus_weights`. -/
theorem C8_hdf_export_list :
    RadiationField.hdf_properties = ["frequencies", "opacities", "F_nu"] ∧
    "I_nus" ∉ RadiationField.hdf_properties ∧
    "thetas" ∉ RadiationField.hdf_properties ∧
    "I_nus_weights" ∉ RadiationField.hdf_properties := by
  refine ⟨rfl, by decide, by decide, by decide⟩

/-- C3: for every `num_of_thetas = n ≥ 1` and `leggauss` output satisfying
the Gauss–Legendre contract, construction produces exactly `n` angles and `n`
weights, the angles are the nodes mapped through `x / 2 + π / 4` and the
weights the Gauss–Legendre weights scaled by `π / 2`, in node order, and
every angle lies strictly within `(0, π / 2)`. -/
theorem C3_quadrature_mapping (n : ℕ) (hn : 1 ≤ n) (nodes weights : List ℝ)
    (hgl : legGaussContract n nodes weights) (freqs : List ℝ)
    (sf : SourceFunction) (sm : StellarModel) :
    (radiationFieldMk freqs sf sm nodes weights).thetas.length = n ∧
    (radiationFieldMk freqs sf sm nodes weights).I_nus_weights.length = n ∧
    (radiationFieldMk freqs sf sm nodes weights).thetas
      = nodes.map (fun x => x / 2 + Real.pi / 4) ∧
    (radiationFieldMk freqs sf sm nodes weights).I_nus_weights
      = weights.map (fun w => w * (Real.pi / 2)) ∧
    ∀ θ ∈ (radiationFieldMk freqs sf sm nodes weights).thetas,
      0 < θ ∧ θ < Real.pi / 2 := by
  obtain ⟨hlen, hwlen, hmem, -, -, -⟩ := hgl
  refine ⟨?_, ?_, ?_, ?_, ?_⟩
  · rw [thetas_mk, List.length_map, hlen]
  · rw [I_nus_weights_mk, List.length_map, hwlen]
  · rw [thetas_mk]
    exact List.map_congr_left (fun x _ => by ring)
  · rw [I_nus_weights_mk]
    exact List.map_congr_left (fun w _ => by ring)
  · rw [thetas_mk]
    intro θ hθ
    obtain ⟨x, hx, rfl⟩ := List.mem_map.1 hθ
    obtain ⟨hx1, hx2⟩ := hmem x hx
    have hπ := Real.pi_gt_three
    constructor <;> nlinarith

/-- C3 witness: the quadrature mapping at `n = 1` with the one-point
Gauss–Legendre rule (node 0, weight 2): one angle, one weight, the angle is
`π / 4` and lies in `(0, π / 2)`. -/
theorem C3_quadrature_mapping_witness :
    legGaussContract 1 [0] [2] ∧
    ((radiationFieldMk [1] SourceFunction.blackbody_flux_at_nu ⟨2⟩
        [0] [2]).thetas.length = 1 ∧
      (radiationFieldMk [1] SourceFunction.blackbody_flux_at_nu ⟨2⟩
        [0] [2]).I_nus_weights.length = 1 ∧
      (radiationFieldMk [1] SourceFunction.blackbody_flux_at_nu ⟨2⟩
        [0] [2]).thetas = [0].map (fun x => x / 2 + Real.pi / 4) ∧
      (radiationFieldMk [1] SourceFunction.blackbody_flux_at_nu ⟨2⟩
        [0] [2]).I_nus_weights = [2].map (fun w => w * (Real.pi / 2)) ∧
      ∀ θ ∈ (radiationFieldMk [1] SourceFunction.blackbody_flux_at_nu ⟨2⟩
        [0] [2]).thetas, 0 < θ ∧ θ < Real.pi / 2) :=
  ⟨by refine ⟨rfl, rfl, ?_, ?_, ?_, ?_⟩ <;> norm_num,
    C3_quadrature_mapping 1 (by norm_num) [0] [2]
      (by refine ⟨rfl, rfl, ?_, ?_, ?_, ?_⟩ <;> norm_num) [1] _ _⟩

/-- C9: for every `num_of_thetas = n ≥ 1`, with the `leggauss` nodes in
ascending order as the contract states, the `thetas` array produced by
construction is strictly increasing, since `x / 2 + π / 4` is
order-preserving. -/
theorem C9_thetas_strictly_increasing (n : ℕ) (hn : 1 ≤ n)
    (nodes weights : List ℝ) (hgl : legGaussContract n nodes weights)
    (freqs : List ℝ) (sf : SourceFunction) (sm : StellarModel) :
    List.Chain' (· < ·) (radiationFieldMk freqs sf sm nodes weights).thetas := by
  rw [thetas_mk, List.chain'_map]
  exact hgl.2.2.2.1.imp (fun a b hab => by linarith)

/-- C9 witness: strict increase of `thetas` at `n = 2` with the contract
instance nodes `[-1/2, 1/2]`, weights `[1, 1]`. -/
theorem C9_thetas_strictly_increasing_witness :
    legGaussContract 2 [-(1 : ℝ)/2, 1/2] [1, 1] ∧
    List.Chain' (· < ·) (radiationFieldMk [1] SourceFunction.blackbody_flux_at_nu
      ⟨3⟩ [-(1 : ℝ)/2, 1/2] [1, 1]).thetas :=
  ⟨by refine ⟨rfl, rfl, ?_, ?_, ?_, ?_⟩ <;> norm_num,
    C9_thetas_strictly_increasing 2 (by norm_num) [-(1 : ℝ)/2, 1/2] [1, 1]
      (by refine ⟨rfl, rfl, ?_, ?_, ?_, ?_⟩ <;> norm_num) [1] _ _⟩

/-- C4: for a non-empty frequency grid, a positive depth count and
`num_of_thetas = n ≥ 1` with `leggauss` output per contract, construction
yields `F_nu` of shape `(N_depth, N_f)` and `I_nus` of shape
`(N_depth, N_f, n)`, both entirely zero, with `n` thetas and `n` weights. -/
theorem C4_array_shapes (freqs : List ℝ) (hf : freqs ≠ []) (sm : StellarModel)
    (hd : 0 < sm.no_of_depth_points) (n : ℕ) (hn : 1 ≤ n)
    (nodes weights : List ℝ) (hgl : legGaussContract n nodes weights)
    (sf : SourceFunction) :
    (radiationFieldMk freqs sf sm nodes weights).F_nu.length
      = sm.no_of_depth_points.toNat ∧
    (∀ row ∈ (radiationFieldMk freqs sf sm nodes weights).F_nu,
      row.length = freqs.length ∧ ∀ x ∈ row, x = 0) ∧
    (radiationFieldMk freqs sf sm nodes weights).I_nus.length
      = sm.no_of_depth_points.toNat ∧
    (∀ plane ∈ (radiationFieldMk freqs sf sm nodes weights).I_nus,
      plane.length = freqs.length ∧
        ∀ row ∈ plane, row.length = n ∧ ∀ x ∈ row, x = 0) ∧
    (radiationFieldMk freqs sf sm nodes weights).thetas.length = n ∧
    (radiationFieldMk freqs sf sm nodes weights).I_nus_weights.length = n := by
  obtain ⟨hlen, hwlen, -, -, -, -⟩ := hgl
  refine ⟨?_, ?_, ?_, ?_, ?_, ?_⟩
  · simp [radiationFieldMk, zeros2]
  · intro row hrow
    rw [show (radiationFieldMk freqs sf sm nodes weights).F_nu
        = zeros2 sm.no_of_depth_points.toNat freqs.length from rfl] at hrow
    rw [zeros2, List.mem_replicate] at hrow
    rw [hrow.2]
    exact ⟨List.length_replicate _ _, fun x hx => (List.mem_replicate.1 hx).2⟩
  · simp [radiationFieldMk, zeros3]
  · intro plane hplane
    rw [show (radiationFieldMk freqs sf sm nodes weights).I_nus
        = zeros3 sm.no_of_depth_points.toNat freqs.length
            (nodes.map (fun x => x / 2 + 0.5 * Real.pi / 2)).length from rfl] at hplane
    rw [zeros3, List.mem_replicate] at hplane
    rw [hplane.2]
    refine ⟨List.length_replicate _ _, fun row hrow => ?_⟩
    rw [(List.mem_replicate.1 hrow).2]
    refine ⟨by rw [List.length_replicate, List.length_map, hlen],
      fun x hx => (List.mem_replicate.1 hx).2⟩
  · rw [thetas_mk, List.length_map, hlen]
  · rw [I_nus_weights_mk, List.length_map, hwlen]

/-- C4 witness: length-5 frequencies, 10 depth points and 3 thetas (contract
instance nodes `[-1/2, 0, 1/2]`, weights `[1/2, 1, 1/2]`) give `F_nu` of
shape `(10, 5)` and `I_nus` of shape `(10, 5, 3)`, all zero. -/
theorem C4_array_shapes_witness :
    legGaussContract 3 [-(1 : ℝ)/2, 0, 1/2] [1/2, 1, 1/2] ∧
    ((radiationFieldMk [1, 2, 3, 4, 5] SourceFunction.blackbody_flux_at_nu ⟨10⟩
        [-(1 : ℝ)/2, 0, 1/2] [1/2, 1, 1/2]).F_nu.length
        = (10 : ℤ).toNat ∧
      (∀ row ∈ (radiationFieldMk [1, 2, 3, 4, 5]
          SourceFunction.blackbody_flux_at_nu ⟨10⟩
          [-(1 : ℝ)/2, 0, 1/2] [1/2, 1, 1/2]).F_nu,
        row.length = [(1 : ℝ), 2, 3, 4, 5].length ∧ ∀ x ∈ row, x = 0) ∧
      (radiationFieldMk [1, 2, 3, 4, 5] SourceFunction.blackbody_flux_at_nu ⟨10⟩
        [-(1 : ℝ)/2, 0, 1/2] [1/2, 1, 1/2]).I_nus.length
        = (10 : ℤ).toNat ∧
      (∀ plane ∈ (radiationFieldMk [1, 2, 3, 4, 5]
          SourceFunction.blackbody_flux_at_nu ⟨10⟩
          [-(1 : ℝ)/2, 0, 1/2] [1/2, 1, 1/2]).I_nus,
        plane.length = [(1 : ℝ), 2, 3, 4, 5].length ∧
          ∀ row ∈ plane, row.length = 3 ∧ ∀ x ∈ row, x = 0) ∧
      (radiationFieldMk [1, 2, 3, 4, 5] SourceFunction.blackbody_flux_at_nu ⟨10⟩
        [-(1 : ℝ)/2, 0, 1/2] [1/2, 1, 1/2]).thetas.length = 3 ∧
      (radiationFieldMk [1, 2, 3, 4, 5] SourceFunction.blackbody_flux_at_nu ⟨10⟩
        [-(1 : ℝ)/2, 0, 1/2] [1/2, 1, 1/2]).I_nus_weights.length = 3) :=
  ⟨by refine ⟨rfl, rfl, ?_, ?_, ?_, ?_⟩ <;> norm_num,
    C4_array_shapes [1, 2, 3, 4, 5] (by simp) ⟨10⟩ (by norm_num) 3 (by norm_num)
      [-(1 : ℝ)/2, 0, 1/2] [1/2, 1, 1/2]
      (by refine ⟨rfl, rfl, ?_, ?_, ?_, ?_⟩ <;> norm_num)
      SourceFunction.blackbody_flux_at_nu⟩

/-- C6: `create_stellar_radiation_field` first constructs a `RadiationField`
from `tracing_nus`, the blackbody source function, the stellar model and
`config.no_of_thetas`; then invokes `calc_alphas`; then, only after that call
returns, invokes `raytrace` on the field with its opacities filled; and
finally returns the very field it constructed, with only the opacity
container and the `F_nu`/`I_nus` arrays updated by the two collaborators. -/
theorem C6_orchestration_order {ε : Type} (tracing_nus : List ℝ)
    (sm : StellarModel) (plasma : StellarPlasma) (config : Config)
    (gl : List ℝ × List ℝ)
    (calc_alphas : StellarPlasma → StellarModel → RadiationField →
      OpacitySourcesConfig → ℤ → Except ε Opacities)
    (raytrace : StellarModel → RadiationField → ℤ →
      Except ε (List (List ℝ) × List (List (List ℝ))))
    (rf0 : RadiationField) (ops : Opacities)
    (fi : List (List ℝ) × List (List (List ℝ)))
    (h0 : radiationFieldInitE tracing_nus SourceFunction.blackbody_flux_at_nu sm
      config.no_of_thetas gl = .ok rf0)
    (h1 : calc_alphas plasma sm rf0 config.opacity config.n_threads = .ok ops)
    (h2 : raytrace sm { rf0 with opacities := ops } config.n_threads = .ok fi) :
    create_stellar_radiation_field tracing_nus sm plasma config gl
        calc_alphas raytrace
      = ([.constructRadiationField, .callCalcAlphas, .callRaytrace],
         .ok { rf0 with opacities := ops, F_nu := fi.1, I_nus := fi.2 }) := by
  simp only [create_stellar_radiation_field, h0, h1, h2]

/-- C6 witness: the orchestration at a concrete input: one frequency, depth
count 1, one theta, stub collaborators that succeed with constant outputs. -/
theorem C6_orchestration_order_witness :
    create_stellar_radiation_field (ε := Unit) [1] ⟨1⟩ ⟨0⟩ ⟨1, ⟨0⟩, 1⟩
        ([0], [2]) (fun _ _ _ _ _ => .ok ⟨[1], 1⟩)
        (fun _ _ _ => .ok ([[5]], [[[7]]]))
      = ([.constructRadiationField, .callCalcAlphas, .callRaytrace],
         .ok { radiationFieldMk [1] SourceFunction.blackbody_flux_at_nu ⟨1⟩
            [0] [2] with
          opacities := ⟨[1], 1⟩, F_nu := [[5]], I_nus := [[[7]]] }) :=
  C6_orchestration_order (ε := Unit) [1] ⟨1⟩ ⟨0⟩ ⟨1, ⟨0⟩, 1⟩ ([0], [2])
    (fun _ _ _ _ _ => .ok ⟨[1], 1⟩) (fun _ _ _ => .ok ([[5]], [[[7]]]))
    (radiationFieldMk [1] SourceFunction.blackbody_flux_at_nu ⟨1⟩ [0] [2])
    ⟨[1], 1⟩ ([[5]], [[[7]]]) rfl rfl rfl

/-- C7: any error raised by the opacity aggregator or the ray integrator
during `create_stellar_radiation_field` propagates to the caller unmodified:
when `calc_alphas` fails the orchestrator returns exactly that error, and
when `calc_alphas` succeeds and `raytrace` fails it returns exactly the
`raytrace` error; no value is returned in either case. -/
theorem C7_error_propagation {ε : Type} (tracing_nus : List ℝ)
    (sm : StellarModel) (plasma : StellarPlasma) (config : Config)
    (gl : List ℝ × List ℝ)
    (calc_alphas : StellarPlasma → StellarModel → RadiationField →
      OpacitySourcesConfig → ℤ → Except ε Opacities)
    (raytrace : StellarModel → RadiationField → ℤ →
      Except ε (List (List ℝ) × List (List (List ℝ)))) (e : ε) :
    (∀ rf0, radiationFieldInitE tracing_nus SourceFunction.blackbody_flux_at_nu
        sm config.no_of_thetas gl = .ok rf0 →
      calc_alphas plasma sm rf0 config.opacity config.n_threads = .error e →
      create_stellar_radiation_field tracing_nus sm plasma config gl
          calc_alphas raytrace
        = ([.constructRadiationField, .callCalcAlphas], .error (.inr e))) ∧
    (∀ rf0 ops, radiationFieldInitE tracing_nus
        SourceFunction.blackbody_flux_at_nu sm config.no_of_thetas gl
        = .ok rf0 →
      calc_alphas plasma sm rf0 config.opacity config.n_threads = .ok ops →
      raytrace sm { rf0 with opacities := ops } config.n_threads = .error e →
      create_stellar_radiation_field tracing_nus sm plasma config gl
          calc_alphas raytrace
        = ([.constructRadiationField, .callCalcAlphas, .callRaytrace],
           .error (.inr e))) := by
  constructor
  · intro rf0 h0 h1
    simp only [create_stellar_radiation_field, h0, h1]
  · intro rf0 ops h0 h1 h2
    simp only [create_stellar_radiation_field, h0, h1, h2]

/-- C7 witness: a concrete failing opacity aggregator: its error string is
returned by the orchestrator unmodified. -/
theorem C7_error_propagation_witness :
    create_stellar_radiation_field (ε := String) [1] ⟨1⟩ ⟨0⟩ ⟨1, ⟨0⟩, 1⟩
        ([0], [2]) (fun _ _ _ _ _ => .error "species data missing")
        (fun _ _ _ => .ok ([[1]], [[[1]]]))
      = ([.constructRadiationField, .callCalcAlphas],
         .error (.inr "species data missing")) :=
  (C7_error_propagation (ε := String) [1] ⟨1⟩ ⟨0⟩ ⟨1, ⟨0⟩, 1⟩ ([0], [2])
      (fun _ _ _ _ _ => .error "species data missing")
      (fun _ _ _ => .ok ([[1]], [[[1]]])) "species data missing").1
    (radiationFieldMk [1] SourceFunction.blackbody_flux_at_nu ⟨1⟩ [0] [2])
    rfl rfl

theorem scaleElementRow_pos (Y Z : ℝ) (hY : 0 < Y) (hZ : 0 < Z)
    (atomic_number : ℕ) (v : ℝ) (hv : 0 < v) :
    0 < scaleElementRow Y Z atomic_number v := by
  have hY0 : (0 : ℝ) < ASPLUND_DEFAULT_HELIUM_MASS_FRACTION_Y := by
    norm_num [ASPLUND_DEFAULT_HELIUM_MASS_FRACTION_Y]
  have hZ0 : (0 : ℝ) < ASPLUND_DEFAULT_HEAVY_ELEMENTS_MASS_FRACTION_Z := by
    norm_num [ASPLUND_DEFAULT_HEAVY_ELEMENTS_MASS_FRACTION_Z]
  unfold scaleElementRow
  split_ifs <;> positivity

/-- C10: for every atom data with positive masses on the (non-empty) solar
table and every positive `helium_mass_frac_Y` and `heavy_metal_mass_frac_Z`,
the mass-fraction column returned by `create_scaled_solar_profile` sums to
exactly 1: the final division normalizes by the column total. -/
theorem C10_scaled_profile_normalized (solar_values : List (ℕ × ℝ))
    (mass : ℕ → ℝ) (helium_mass_frac_Y heavy_metal_mass_frac_Z : ℝ)
    (hY : 0 < helium_mass_frac_Y) (hZ : 0 < heavy_metal_mass_frac_Z)
    (hne : solar_values ≠ [])
    (hmass : ∀ p ∈ solar_values, 0 < mass p.1) :
    ((create_scaled_solar_profile solar_values mass helium_mass_frac_Y
      heavy_metal_mass_frac_Z none).map Prod.snd).sum = 1 := by
  simp only [create_scaled_solar_profile]
  set scaled := (solar_values.map (fun p => (p.1, mass p.1 * (10 : ℝ) ^ p.2))).map
    (fun p => (p.1, scaleElementRow helium_mass_frac_Y heavy_metal_mass_frac_Z
      p.1 p.2)) with hscaled
  set total := (scaled.map Prod.snd).sum with htotal
  have hpos : ∀ x ∈ scaled.map Prod.snd, 0 < x := by
    intro x hx
    rw [hscaled] at hx
    simp only [List.map_map, List.mem_map, Function.comp] at hx
    obtain ⟨p, hp, rfl⟩ := hx
    exact scaleElementRow_pos _ _ hY hZ p.1 _
      (mul_pos (hmass p hp) (Real.rpow_pos_of_pos (by norm_num) _))
  have hne' : scaled.map Prod.snd ≠ [] := by
    rw [hscaled]
    simpa using hne
  have htotal_pos : 0 < total := List.sum_pos _ hpos hne'
  have hmaps : ((scaled.map (fun p => (p.1, p.2 / total))).map Prod.snd)
      = (scaled.map Prod.snd).map (fun x => x * total⁻¹) := by
    simp only [List.map_map]
    exact List.map_congr_left (fun p _ => by
      simp [Function.comp, div_eq_mul_inv])
  rw [hmaps]
  have := List.sum_map_mul_right (scaled.map Prod.snd) id total⁻¹
  simp only [List.map_id] at this
  rw [show ((scaled.map Prod.snd).map fun x => x * total⁻¹)
      = ((scaled.map Prod.snd).map fun x => id x * total⁻¹) from rfl, this]
  simp only [List.map_id, ← htotal]
  exact mul_inv_cancel₀ (ne_of_gt htotal_pos)

/-- C10 witness: a one-row solar table (hydrogen, log-abundance 0), unit
masses, and `Y = Z = 1`: the returned column sums to 1. -/
theorem C10_scaled_profile_normalized_witness :
    (0 : ℝ) < 1 ∧ ([((1 : ℕ), (0 : ℝ))] : List (ℕ × ℝ)) ≠ [] ∧
    ((create_scaled_solar_profile [((1 : ℕ), (0 : ℝ))] (fun _ => 1) 1 1
      none).map Prod.snd).sum = 1 :=
  ⟨by norm_num, by simp,
    C10_scaled_profile_normalized [((1 : ℕ), (0 : ℝ))] (fun _ => 1) 1 1
      (by norm_num) (by norm_num) (by simp)
      (fun p _ => by norm_num)⟩
